import Mathlib

/-!
Shallow embedding of the contract-compliance engine
(`regulatory_kb.py` and `main.py`): the regulation registry, the
applicability resolver, the clause-presence detector, the gap/score
aggregator and the remediation text generator, together with theorems
settling the specification claims about them.

Python strings are modelled as Lean `String` over their character
lists; `x in s` on strings is substring containment (`strContains`);
`str.lower`/`str.upper` are per-character ASCII case maps; Python float
score arithmetic is modelled in `ℚ` (at every operand combination the
engine can reach, IEEE double evaluation of the score expressions agrees
with exact rational evaluation, checked case by case at the decision
thresholds). Python dicts with literal keys are modelled as functions
with a default, mirroring `dict.get(k, default)`.
-/

set_option maxRecDepth 20000

namespace ContractCompliance

/-- `substrAux pat l` decides whether `pat` occurs contiguously in `l`,
scanning left to right, as Python's `in` does on strings. -/
def substrAux (pat : List Char) : List Char → Bool
  | [] => pat.isPrefixOf []
  | c :: t => pat.isPrefixOf (c :: t) || substrAux pat t

/-- Python `pat in hay` on strings: substring containment. -/
def strContains (hay pat : String) : Bool :=
  substrAux pat.data hay.data

/-- Python `str.lower()` (ASCII). -/
def lowerStr (s : String) : String :=
  String.mk (s.data.map Char.toLower)

/-- Python `str.upper()` (ASCII). -/
def upperStr (s : String) : String :=
  String.mk (s.data.map Char.toUpper)

/-- One entry of a regulation's clause list in
`CommercialRegulatoryKnowledgeBase._initialize_commercial_regulations`. -/
structure Clause where
  clause : String
  description : String
  risk_level : String
  requirements : List String
  legal_citation : String
  jurisdictions : List String
  industries : List String
deriving DecidableEq, Repr

/-- First clause of `"GLBA"` in the registry. -/
def glbaClause1 : Clause :=
  { clause := "Financial Privacy Notice"
    description := "Gramm-Leach-Bliley Act privacy requirements for financial institutions"
    risk_level := "high"
    requirements := ["Privacy notice delivery", "Opt-out mechanisms",
      "Information sharing policies", "Safeguards rule compliance",
      "Annual privacy notices"]
    legal_citation := "15 U.S.C. § 6801-6809"
    jurisdictions := ["US"]
    industries := ["financial", "banking", "lending", "insurance"] }

/-- Second clause of `"GLBA"` in the registry. -/
def glbaClause2 : Clause :=
  { clause := "Data Safeguards Program"
    description := "Information security program for customer data protection"
    risk_level := "high"
    requirements := ["Written security program", "Employee training",
      "Access controls", "Data encryption", "Incident response plan"]
    legal_citation := "16 CFR Part 314"
    jurisdictions := ["US"]
    industries := ["financial", "banking", "lending"] }

/-- Sole clause of `"FCRA"` in the registry. -/
def fcraClause : Clause :=
  { clause := "Credit Reporting Authorization"
    description := "Fair Credit Reporting Act requirements for credit checks"
    risk_level := "high"
    requirements := ["Consumer authorization", "Permissible purpose certification",
      "Adverse action notices", "Dispute investigation procedures",
      "Accuracy requirements"]
    legal_citation := "15 U.S.C. § 1681 et seq."
    jurisdictions := ["US"]
    industries := ["financial", "employment", "lending", "housing"] }

/-- Sole clause of `"TILA"` in the registry. -/
def tilaClause : Clause :=
  { clause := "Truth in Lending Disclosures"
    description := "Regulation Z requirements for loan cost disclosures"
    risk_level := "high"
    requirements := ["APR disclosure", "Finance charge calculation",
      "Payment schedule", "Total payments disclosure", "Right of rescission"]
    legal_citation := "15 U.S.C. § 1601 et seq."
    jurisdictions := ["US"]
    industries := ["lending", "financial", "auto_finance", "mortgage"] }

/-- Sole clause of `"EFTA"` in the registry. -/
def eftaClause : Clause :=
  { clause := "Electronic Fund Transfer Authorization"
    description := "Regulation E requirements for electronic payments"
    risk_level := "medium"
    requirements := ["EFT authorization", "Error resolution procedures",
      "Liability limitations", "Receipt requirements", "Periodic statements"]
    legal_citation := "15 U.S.C. § 1693 et seq."
    jurisdictions := ["US"]
    industries := ["financial", "banking", "payment_processing"] }

/-- Sole clause of `"CCPA_CPRA"` in the registry. -/
def ccpaClause : Clause :=
  { clause := "California Consumer Privacy Rights"
    description := "California Consumer Privacy Act and Privacy Rights Act compliance"
    risk_level := "high"
    requirements := ["Right to know disclosures", "Right to delete procedures",
      "Right to opt-out of sales", "Non-discrimination policy",
      "Data processing agreements"]
    legal_citation := "Cal. Civ. Code § 1798.100 et seq."
    jurisdictions := ["US_CA", "US"]
    industries := ["all"] }

/-- Sole clause of `"NY_DFS"` in the registry. -/
def nydfsClause : Clause :=
  { clause := "NYDFS Cybersecurity Requirements"
    description := "New York Department of Financial Services cybersecurity regulation"
    risk_level := "high"
    requirements := ["Cybersecurity program", "Chief Information Security Officer",
      "Penetration testing", "Audit trail systems", "Incident response plan"]
    legal_citation := "23 NYCRR Part 500"
    jurisdictions := ["US_NY", "US"]
    industries := ["financial", "insurance", "banking"] }

/-- The keys of `self.regulatory_data` (the dict built in
`_initialize_commercial_regulations`), in insertion order. -/
def regKeys : List String :=
  ["GLBA", "FCRA", "TILA", "EFTA", "CCPA_CPRA", "NY_DFS"]

/-- `self.regulatory_data.get(r, [])`: the clause list of a regulation,
empty for ids outside the registry. -/
def regData (r : String) : List Clause :=
  if r = "GLBA" then [glbaClause1, glbaClause2]
  else if r = "FCRA" then [fcraClause]
  else if r = "TILA" then [tilaClause]
  else if r = "EFTA" then [eftaClause]
  else if r = "CCPA_CPRA" then [ccpaClause]
  else if r = "NY_DFS" then [nydfsClause]
  else []

/-- `self.jurisdiction_map.get(j, [])` from `_initialize_jurisdiction_map`. -/
def jurisdictionMap (j : String) : List String :=
  if j = "US" then ["GLBA", "FCRA", "TILA", "EFTA", "CCPA_CPRA"]
  else if j = "US_CA" then ["GLBA", "FCRA", "TILA", "EFTA", "CCPA_CPRA", "NY_DFS"]
  else if j = "US_NY" then ["GLBA", "FCRA", "TILA", "EFTA", "CCPA_CPRA", "NY_DFS"]
  else if j = "global" then ["CCPA_CPRA"]
  else []

/-- `self.industry_map.get(i, [])` from `_initialize_industry_map`. -/
def industryMap (i : String) : List String :=
  if i = "financial" then ["GLBA", "FCRA", "TILA", "EFTA", "NY_DFS"]
  else if i = "banking" then ["GLBA", "FCRA", "TILA", "EFTA", "NY_DFS"]
  else if i = "lending" then ["GLBA", "FCRA", "TILA", "EFTA"]
  else if i = "insurance" then ["GLBA", "NY_DFS"]
  else if i = "auto_finance" then ["GLBA", "FCRA", "TILA", "EFTA"]
  else if i = "general" then ["CCPA_CPRA"]
  else []

/-- `_detect_regulations_from_content`: content-triggered regulation ids
(the Python set is modelled up to membership, which is all its callers
use). The argument is the already lowercased contract text. -/
def detectRegulationsFromContent (contractText : String) : List String :=
  (if ["loan", "financing", "credit", "interest rate", "apr", "payment",
        "debt"].any (fun term => strContains contractText term)
   then ["GLBA", "FCRA", "TILA", "EFTA"] else []) ++
  (if ["personal data", "privacy", "confidential", "data processing",
        "consumer information"].any (fun term => strContains contractText term)
   then ["CCPA_CPRA"] else []) ++
  (if ["security", "cyber", "data protection", "encryption",
        "access control"].any (fun term => strContains contractText term)
   then ["NY_DFS"] else [])

/-- The keep-condition of `_filter_inappropriate_regulations`: a candidate
survives when its clause list is empty (the loop `continue`s without
marking it inappropriate) or when the first clause's jurisdiction and
industry tags are compatible with the context. -/
def keepRegulation (r jurisdiction industry : String) : Bool :=
  match regData r with
  | [] => true
  | c :: _ =>
    (c.jurisdictions.contains jurisdiction || c.jurisdictions.contains "global") &&
    (c.industries.contains industry || c.industries.contains "all")

/-- The candidate set accumulated by `get_applicable_regulations` before
filtering: jurisdiction defaults ∪ industry defaults ∪ content detection
(a Python set; modelled as a deduplicated list). -/
def candidateRegulations (contractText jurisdiction industry : String) : List String :=
  (jurisdictionMap jurisdiction ++ industryMap industry ++
    detectRegulationsFromContent (lowerStr contractText)).dedup

/-- `get_applicable_regulations`: filter the candidate set through
`_filter_inappropriate_regulations` and return it sorted
(`sorted(list(applicable_regulations))`). -/
def getApplicableRegulations (contractText jurisdiction industry : String) : List String :=
  List.insertionSort (· ≤ ·)
    ((candidateRegulations contractText jurisdiction industry).filter
      (fun r => keepRegulation r jurisdiction industry))

/-- Python's `\w` on the ASCII range: letters, digits, underscore. -/
def isWordChar (c : Char) : Bool :=
  c.isAlphanum || c == '_'

/-- Maximal runs of characters satisfying `p`, in scan order (the runs a
regular expression anchored on both sides by the complement of `p` finds). -/
def runsBy (p : Char → Bool) : List Char → List (List Char)
  | [] => []
  | c :: rest =>
    if h : p c then
      ((c :: rest).takeWhile p) :: runsBy p ((c :: rest).dropWhile p)
    else
      runsBy p rest
termination_by l => l.length
decreasing_by
  · simp only [List.dropWhile_cons_of_pos h, List.length_cons]
    exact Nat.lt_succ_of_le (List.Sublist.length_le (List.dropWhile_sublist p))
  · simp

/-- `c ∈ [a-z]`. -/
def isLowerAlpha (c : Char) : Bool :=
  'a' ≤ c && c ≤ 'z'

/-- `re.findall(r'\b[a-z]{3,}\b', text.lower())` in `_extract_keywords`:
maximal word-character runs of the lowercased text that consist entirely
of lowercase letters and have length at least 3 (a shorter sub-run of a
word run is rejected by the `\b` anchors). -/
def findLowerWords (text : String) : List String :=
  ((runsBy isWordChar (lowerStr text).data).filter
    (fun t => t.all isLowerAlpha && t.length ≥ 3)).map String.mk

/-- The stop-word set of `_extract_keywords`. -/
def stopWords : List String :=
  ["the", "and", "or", "but", "in", "on", "at", "to", "for", "of", "with", "by"]

/-- `_extract_keywords`: scan-order word tokens, stop-words removed,
first five kept. -/
def extractKeywords (text : String) : List String :=
  ((findLowerWords text).filter (fun w => !stopWords.contains w)).take 5

/-- `concept_map.get(clause_name, [])` in `_check_semantic_concepts`,
keyed by the clause name in its original capitalisation. -/
def conceptMap (clauseName : String) : List String :=
  if clauseName = "Financial Privacy Notice" then
    ["privacy policy", "data sharing", "opt out", "confidentiality"]
  else if clauseName = "Credit Reporting Authorization" then
    ["credit check", "background check", "consumer report", "authorization"]
  else if clauseName = "Data Safeguards Program" then
    ["security program", "data protection", "encryption", "access control"]
  else if clauseName = "Truth in Lending Disclosures" then
    ["apr", "annual percentage rate", "finance charge", "disclosure"]
  else []

/-- `_check_semantic_concepts`: how many of the clause's concept phrases
occur in the contract text. -/
def checkSemanticConcepts (cd : Clause) (contractText : String) : Nat :=
  (conceptMap cd.clause).countP (fun concept => strContains contractText concept)

/-- Python `str.split()`: maximal whitespace-free runs. -/
def splitWhitespace (s : String) : List String :=
  (runsBy (fun c => !c.isWhitespace) s.data).map String.mk

/-- The weighted `total_score` of `_is_clause_present`, in exact rational
arithmetic (the Python float evaluation agrees with it on every operand
combination the detector can produce: the counts are bounded by 5, 3 and
4, and at each combination near the 1.0 threshold the double rounding
errors cancel). -/
def clauseScore (cd : Clause) (contractText : String) : ℚ :=
  let clause_name := lowerStr cd.clause
  let requirements := cd.requirements.map lowerStr
  let keywords := extractKeywords clause_name
  let direct_matches := keywords.countP (fun keyword => strContains contractText keyword)
  let requirement_matches := (requirements.take 3).countP
    (fun req => (splitWhitespace req).any (fun word => strContains contractText word))
  let concept_matches := checkSemanticConcepts cd contractText
  (direct_matches : ℚ) * 0.5 + (requirement_matches : ℚ) * 0.3 + (concept_matches : ℚ) * 0.2

/-- `_is_clause_present`: the weighted score reaches the 1.0 threshold. -/
def isClausePresent (cd : Clause) (contractText : String) : Bool :=
  clauseScore cd contractText ≥ 1.0

/-- `get_missing_clauses`: for an id outside the registry return `[]`;
otherwise keep, in catalog order, the clauses not detected in the
lowercased contract text. -/
def getMissingClauses (contractText regulation : String) : List Clause :=
  if regKeys.contains regulation then
    (regData regulation).filter (fun cd => !(isClausePresent cd (lowerStr contractText)))
  else []

/-- Python `", ".join(requirements)`. -/
def joinComma : List String → String
  | [] => ""
  | [x] => x
  | x :: xs => x ++ ", " ++ joinComma xs

/-- The deterministic fallback template of `generate_ai_clause_text`,
character for character: uppercased clause title, the obligation sentence
naming the regulation and the lowercased clause, the comma-joined
requirement list, and the fixed compliance/audit/remediation paragraph. -/
def fallbackClauseText (regulation clause : String) (requirements : List String) : String :=
  "\n" ++ upperStr clause ++
  "\n\nThe Parties shall comply with all applicable requirements under " ++
  regulation ++ " regarding " ++ lowerStr clause ++
  ", including but not limited to: " ++ joinComma requirements ++
  ".\n\nAppropriate technical and organizational measures shall be implemented to ensure ongoing compliance. All compliance activities shall be properly documented and made available for audit upon request. In case of non-compliance, the Parties shall take immediate corrective action and notify relevant stakeholders as required by applicable law.\n"

/-- `generate_ai_clause_text`, with the external service's reply passed in
as `response` (`query_openrouter` returns the degraded sentinel
"AI analysis completed. Please review the compliance recommendations."
whenever the HTTP call errors or returns a non-200 status): the fallback
template is used when the reply is empty, shorter than 50 characters, or
contains the sentinel text. -/
def generateAiClauseText (regulation clause : String) (requirements : List String)
    (contractContext : String) (response : String) : String :=
  if response = "" ∨ response.length < 50 ∨
      strContains response "AI analysis completed" = true then
    fallbackClauseText regulation clause requirements
  else response

/-- The per-regulation score expression of `analyze_compliance`:
`max(0.1, 1.0 - (missing_count / total_clauses * 0.8))`, in exact rational
arithmetic (the engine only reaches `missing_count ≤ 2`, where double
evaluation agrees). -/
def complianceScore (missingCount totalClauses : Nat) : ℚ :=
  max 0.1 (1.0 - ((missingCount : ℚ) / (totalClauses : ℚ) * 0.8))

/-- A `ClauseSuggestion` as built in the per-regulation loop of
`analyze_compliance`. -/
structure ClauseSuggestion where
  clause : String
  description : String
  risk_level : String
  requirements : List String
  suggested_text : String
  legal_citation : String
deriving DecidableEq, Repr

/-- The fields of a `ComplianceResult` the claims concern (the issue,
recommendation and legal-reference lists are carried alongside in the
source and never feed back into scores or risk). -/
structure ComplianceResult where
  regulation : String
  compliance_score : ℚ
  risk_assessment : String
  missing_clauses : List ClauseSuggestion
deriving DecidableEq, Repr

/-- The fields of an `AnalysisResponse` the claims concern. -/
structure AnalysisResponse where
  results : List ComplianceResult
  overall_score : ℚ
  risk_level : String
deriving DecidableEq, Repr

/-- One iteration of the per-regulation loop of `analyze_compliance`.
The external generative service is modelled as a function `svc` from the
queried clause name to its reply. `enhance_compliance_analysis` may
replace `risk_assessment` (default `"medium"`) with whatever the service
reports, modelled as an arbitrary `riskOf`; it never touches
`compliance_score` or `missing_clauses`. -/
def perRegulationResult (contractText : String) (svc riskOf : String → String)
    (regulation : String) : ComplianceResult :=
  let missing_clauses_data := getMissingClauses contractText regulation
  let missing_clauses : List ClauseSuggestion := missing_clauses_data.map (fun cd =>
    { clause := cd.clause
      description := cd.description
      risk_level := cd.risk_level
      requirements := cd.requirements
      suggested_text := generateAiClauseText regulation cd.clause cd.requirements
        contractText (svc cd.clause)
      legal_citation := cd.legal_citation })
  let total_clauses := missing_clauses_data.length + 3
  let missing_count := missing_clauses.length
  { regulation := regulation
    compliance_score := complianceScore missing_count total_clauses
    risk_assessment := riskOf regulation
    missing_clauses := missing_clauses }

/-- The overall risk computation of `analyze_compliance`: "high" when the
count of "high" per-regulation assessments is positive, else "medium"
when any assessment is "medium", else "low". -/
def overallRiskLevel (risks : List String) : String :=
  if 0 < risks.countP (fun r => r == "high") then "high"
  else if risks.any (fun r => r == "medium") then "medium"
  else "low"

/-- `analyze_compliance` on an explicitly supplied regulation list: the
per-regulation results in list order, the overall score
(`sum / len` when results is non-empty, else 0.0), and the overall risk
level derived from the per-regulation assessments. -/
def analyzeCompliance (contractText : String) (regulations : List String)
    (svc riskOf : String → String) : AnalysisResponse :=
  let results := regulations.map (perRegulationResult contractText svc riskOf)
  { results := results
    overall_score :=
      if results.length = 0 then 0
      else (results.map (fun r => r.compliance_score)).sum / (results.length : ℚ)
    risk_level := overallRiskLevel (results.map (fun r => r.risk_assessment)) }

/-! ### Lemmas about the string embedding -/

theorem substrAux_iff (pat : List Char) (l : List Char) :
    substrAux pat l = true ↔ pat <:+: l := by
  induction l with
  | nil => simp [substrAux]
  | cons c t ih =>
    rw [List.infix_cons_iff]
    simp [substrAux, ih]

theorem strContains_iff (hay pat : String) :
    strContains hay pat = true ↔ pat.data <:+: hay.data := by
  simp [strContains, substrAux_iff]

theorem infixOfTail {x r : List Char} (a : List Char) (h : x <:+: r) :
    x <:+: a ++ r :=
  h.trans ((List.suffix_append a r).isInfix)

theorem infix_joinComma {q : String} : ∀ {reqs : List String}, q ∈ reqs →
    q.data <:+: (joinComma reqs).data
  | [], h => absurd h (List.not_mem_nil q)
  | [x], h => by
    rcases List.mem_singleton.mp h with rfl
    exact List.infix_refl _
  | x :: y :: ys, h => by
    rcases List.mem_cons.mp h with rfl | h'
    · show q.data <:+: (q ++ ", " ++ joinComma (y :: ys)).data
      simp only [String.data_append, List.append_assoc]
      exact (List.prefix_append _ _).isInfix
    · show q.data <:+: (x ++ ", " ++ joinComma (y :: ys)).data
      simp only [String.data_append, List.append_assoc]
      exact infixOfTail _ (infixOfTail _ (infix_joinComma h'))

/-! ### Lemmas about the applicability resolver -/

theorem mem_getApplicableRegulations {t j i r : String} :
    r ∈ getApplicableRegulations t j i ↔
      r ∈ candidateRegulations t j i ∧ keepRegulation r j i = true := by
  unfold getApplicableRegulations
  rw [(List.perm_insertionSort _ _).mem_iff, List.mem_filter]

theorem candidate_mem_regKeys {t j i r : String}
    (h : r ∈ candidateRegulations t j i) : r ∈ regKeys := by
  unfold candidateRegulations at h
  rw [List.mem_dedup] at h
  simp only [List.mem_append] at h
  rcases h with (h | h) | h
  · unfold jurisdictionMap at h
    split_ifs at h <;>
      (simp only [regKeys, List.mem_cons, List.not_mem_nil] at h ⊢ <;> tauto)
  · unfold industryMap at h
    split_ifs at h <;>
      (simp only [regKeys, List.mem_cons, List.not_mem_nil] at h ⊢ <;> tauto)
  · unfold detectRegulationsFromContent at h
    simp only [List.mem_append] at h
    rcases h with (h | h) | h <;> split_ifs at h <;>
      (simp only [regKeys, List.mem_cons, List.not_mem_nil] at h ⊢ <;> tauto)

theorem regData_ne_nil_of_mem {r : String} (h : r ∈ regKeys) : regData r ≠ [] := by
  fin_cases h <;> decide

theorem keepRegulation_iff {r j i : String} {c : Clause} {cs : List Clause}
    (h : regData r = c :: cs) :
    keepRegulation r j i = true ↔
      (j ∈ c.jurisdictions ∨ "global" ∈ c.jurisdictions) ∧
      (i ∈ c.industries ∨ "all" ∈ c.industries) := by
  unfold keepRegulation
  rw [h]
  simp [List.contains]

/-- C2: for every contract text, jurisdiction and industry, the resolver's
output is sorted by identifier and duplicate-free, and every regulation in
it has a first clause whose jurisdiction tags contain the context's
jurisdiction or the wildcard "global" and whose industry tags contain the
context's industry or the wildcard "all". -/
theorem applicable_regulations_sorted_nodup_compatible
    (t j i r : String) (h : r ∈ getApplicableRegulations t j i) :
    (getApplicableRegulations t j i).Sorted (· ≤ ·) ∧
    (getApplicableRegulations t j i).Nodup ∧
    ∃ c cs, regData r = c :: cs ∧
      (j ∈ c.jurisdictions ∨ "global" ∈ c.jurisdictions) ∧
      (i ∈ c.industries ∨ "all" ∈ c.industries) := by
  refine ⟨List.sorted_insertionSort _ _, ?_, ?_⟩
  · exact ((List.perm_insertionSort _ _).nodup_iff).mpr
      ((List.nodup_dedup _).filter _)
  · rw [mem_getApplicableRegulations] at h
    obtain ⟨hc, hk⟩ := h
    obtain ⟨c, cs, hd⟩ :=
      List.exists_cons_of_ne_nil (regData_ne_nil_of_mem (candidate_mem_regKeys hc))
    exact ⟨c, cs, hd, (keepRegulation_iff hd).mp hk⟩

/-- Witness for C2 at the context (text "", jurisdiction "US",
industry "general") and the member regulation "CCPA_CPRA". -/
theorem applicable_regulations_witness :
    "CCPA_CPRA" ∈ getApplicableRegulations "" "US" "general" ∧
    ((getApplicableRegulations "" "US" "general").Sorted (· ≤ ·) ∧
     (getApplicableRegulations "" "US" "general").Nodup ∧
     ∃ c cs, regData "CCPA_CPRA" = c :: cs ∧
       ("US" ∈ c.jurisdictions ∨ "global" ∈ c.jurisdictions) ∧
       ("general" ∈ c.industries ∨ "all" ∈ c.industries)) :=
  ⟨by decide,
   applicable_regulations_sorted_nodup_compatible "" "US" "general" "CCPA_CPRA" (by decide)⟩

/-- C10: the compatibility filter reads jurisdiction and industry tags
only from the first clause of a regulation's clause list: any candidate
whose first clause is compatible with the context is kept, whatever the
tags of the later clauses say. -/
theorem filter_uses_first_clause_only
    (t j i r : String) (c : Clause) (cs : List Clause)
    (hmem : r ∈ candidateRegulations t j i)
    (hd : regData r = c :: cs)
    (hj : j ∈ c.jurisdictions ∨ "global" ∈ c.jurisdictions)
    (hi : i ∈ c.industries ∨ "all" ∈ c.industries) :
    r ∈ getApplicableRegulations t j i := by
  rw [mem_getApplicableRegulations]
  exact ⟨hmem, (keepRegulation_iff hd).mpr ⟨hj, hi⟩⟩

/-- Witness for C10: GLBA is kept for industry "insurance" because its
first clause lists "insurance", although its second clause does not. -/
theorem filter_uses_first_clause_only_witness :
    ("GLBA" ∈ candidateRegulations "" "US" "insurance" ∧
     regData "GLBA" = glbaClause1 :: [glbaClause2] ∧
     "US" ∈ glbaClause1.jurisdictions ∧ "insurance" ∈ glbaClause1.industries ∧
     "insurance" ∉ glbaClause2.industries) ∧
    "GLBA" ∈ getApplicableRegulations "" "US" "insurance" :=
  ⟨⟨by decide, by decide, by decide, by decide, by decide⟩,
   filter_uses_first_clause_only "" "US" "insurance" "GLBA" glbaClause1 [glbaClause2]
     (by decide) (by decide) (Or.inl (by decide)) (Or.inl (by decide))⟩

/-! ### Lemmas about the compliance score -/

theorem ratio_nonneg (m : ℕ) : (0:ℚ) ≤ (m : ℚ) / ((m : ℚ) + 3) := by
  positivity

theorem ratio_lt_one (m : ℕ) : (m : ℚ) / ((m : ℚ) + 3) < 1 := by
  have h3 : (0:ℚ) < (m : ℚ) + 3 := by positivity
  rw [div_lt_one h3]
  linarith

theorem complianceScore_eq (m : ℕ) :
    complianceScore m (m + 3) = 1 - (m : ℚ) / ((m : ℚ) + 3) * 0.8 := by
  have h1 := ratio_lt_one m
  have h0 := ratio_nonneg m
  unfold complianceScore
  push_cast
  rw [max_eq_right (by nlinarith)]
  norm_num

theorem complianceScore_eq_one_iff (m : ℕ) :
    complianceScore m (m + 3) = 1 ↔ m = 0 := by
  rw [complianceScore_eq]
  have h3 : (0:ℚ) < (m : ℚ) + 3 := by positivity
  constructor
  · intro h
    have hq : (m : ℚ) / ((m : ℚ) + 3) = 0 := by
      rcases mul_eq_zero.mp (by linarith : (m : ℚ) / ((m : ℚ) + 3) * 0.8 = 0) with h' | h'
      · exact h'
      · norm_num at h'
    have hm : (m : ℚ) = 0 := by
      rcases div_eq_zero_iff.mp hq with h' | h'
      · exact h'
      · exact absurd h' (by linarith)
    exact_mod_cast hm
  · rintro rfl
    norm_num

theorem complianceScore_anti {m1 m2 : ℕ} (h : m1 ≤ m2) :
    complianceScore m2 (m2 + 3) ≤ complianceScore m1 (m1 + 3) := by
  rw [complianceScore_eq, complianceScore_eq]
  have h1 : (0:ℚ) < (m1 : ℚ) + 3 := by positivity
  have h2 : (0:ℚ) < (m2 : ℚ) + 3 := by positivity
  have hm : (m1 : ℚ) ≤ (m2 : ℚ) := by exact_mod_cast h
  have hdiv : (m1 : ℚ) / ((m1 : ℚ) + 3) ≤ (m2 : ℚ) / ((m2 : ℚ) + 3) := by
    rw [div_le_div_iff₀ h1 h2]
    nlinarith
  nlinarith

theorem perRegulationResult_score (text : String) (svc riskOf : String → String)
    (reg : String) :
    (perRegulationResult text svc riskOf reg).compliance_score =
      complianceScore (getMissingClauses text reg).length
        ((getMissingClauses text reg).length + 3) := by
  simp [perRegulationResult]

/-- C1: the per-regulation compliance score is
`max(0.1, 1 - missing_count / (missing_count + 3) * 0.8)` for the number
of clauses the detector reports missing; it is `1` exactly when that
count is `0`, non-increasing in the count, and never below `0.1`. -/
theorem per_regulation_compliance_score_spec
    (text : String) (svc riskOf : String → String) (reg : String)
    (m1 m2 : ℕ) (h : m1 ≤ m2) :
    (perRegulationResult text svc riskOf reg).compliance_score =
      max 0.1 (1 - ((getMissingClauses text reg).length : ℚ) /
        (((getMissingClauses text reg).length : ℚ) + 3) * 0.8) ∧
    ((perRegulationResult text svc riskOf reg).compliance_score = 1 ↔
      (getMissingClauses text reg).length = 0) ∧
    complianceScore m2 (m2 + 3) ≤ complianceScore m1 (m1 + 3) ∧
    (1:ℚ)/10 ≤ (perRegulationResult text svc riskOf reg).compliance_score := by
  rw [perRegulationResult_score]
  refine ⟨?_, complianceScore_eq_one_iff _, complianceScore_anti h, ?_⟩
  · unfold complianceScore
    push_cast
    norm_num
  · refine le_trans (by norm_num) (le_max_left _ _)

/-- Witness for C1 at text "", regulation "GLBA", counts 1 ≤ 2. -/
theorem per_regulation_compliance_score_witness :
    (1 : ℕ) ≤ 2 ∧
    ((perRegulationResult "" (fun _ => "") (fun _ => "medium") "GLBA").compliance_score =
      max 0.1 (1 - ((getMissingClauses "" "GLBA").length : ℚ) /
        (((getMissingClauses "" "GLBA").length : ℚ) + 3) * 0.8) ∧
    ((perRegulationResult "" (fun _ => "") (fun _ => "medium") "GLBA").compliance_score = 1 ↔
      (getMissingClauses "" "GLBA").length = 0) ∧
    complianceScore 2 (2 + 3) ≤ complianceScore 1 (1 + 3) ∧
    (1:ℚ)/10 ≤ (perRegulationResult "" (fun _ => "") (fun _ => "medium") "GLBA").compliance_score) :=
  ⟨by decide,
   per_regulation_compliance_score_spec "" (fun _ => "") (fun _ => "medium") "GLBA" 1 2
     (by decide)⟩

/-- C9: `1 - m/(m+3)*0.8` is strictly above `1/5` for every natural
`m`, so the per-regulation score lies in `(1/5, 1]` and the `0.1` floor
branch of the `max` is never the selected one. -/
theorem compliance_score_floor_never_selected (m : ℕ) :
    (1:ℚ)/5 < 1 - (m : ℚ) / ((m : ℚ) + 3) * 0.8 ∧
    complianceScore m (m + 3) = 1 - (m : ℚ) / ((m : ℚ) + 3) * 0.8 ∧
    (1:ℚ)/5 < complianceScore m (m + 3) ∧
    complianceScore m (m + 3) ≤ 1 := by
  have h1 := ratio_lt_one m
  have h0 := ratio_nonneg m
  have hgt : (1:ℚ)/5 < 1 - (m : ℚ) / ((m : ℚ) + 3) * 0.8 := by nlinarith
  refine ⟨hgt, complianceScore_eq m, ?_, ?_⟩
  · rw [complianceScore_eq]
    exact hgt
  · rw [complianceScore_eq]
    nlinarith

/-! ### The clause-presence detector against its specification -/

/-- The clause names for which the semantic-concept table has an entry. -/
def conceptTableKeys : List String :=
  ["Financial Privacy Notice", "Credit Reporting Authorization",
   "Data Safeguards Program", "Truth in Lending Disclosures"]

/-- The weighted presence score as the specification words it: 0.5 times
the number of clause-name keywords found as substrings of the text, plus
0.3 times the number of the first 3 requirement phrases with at least one
whitespace-separated word appearing in the text, plus 0.2 times the
number of semantic-concept table phrases found as substrings. Stated
independently of `clauseScore` for comparison with the source-derived
detector. -/
def specWeightedScore (cd : Clause) (text : String) : ℚ :=
  0.5 * ((extractKeywords (lowerStr cd.clause)).countP
      (fun keyword => strContains text keyword) : ℚ) +
  0.3 * (((cd.requirements.map lowerStr).take 3).countP
      (fun req => (splitWhitespace req).any (fun word => strContains text word)) : ℚ) +
  0.2 * ((conceptMap cd.clause).countP (fun concept => strContains text concept) : ℚ)

theorem conceptMap_eq_nil_of_not_key {name : String}
    (h : name ∉ conceptTableKeys) : conceptMap name = [] := by
  unfold conceptMap
  split_ifs with h1 h2 h3 h4
  · exact absurd (by simp [conceptTableKeys, h1]) h
  · exact absurd (by simp [conceptTableKeys, h2]) h
  · exact absurd (by simp [conceptTableKeys, h3]) h
  · exact absurd (by simp [conceptTableKeys, h4]) h
  · rfl

/-- C5: the detector decides a clause present exactly when the weighted
score of the specification — 0.5 per clause-name keyword found, 0.3 per
early requirement phrase with a word found, 0.2 per semantic-concept
phrase found — reaches 1.0, and a clause name absent from the concept
table contributes 0 to the third signal. -/
theorem clause_presence_weighted_score_spec (cd : Clause) (text : String) :
    (isClausePresent cd text = true ↔ specWeightedScore cd text ≥ 1) ∧
    (cd.clause ∉ conceptTableKeys → checkSemanticConcepts cd text = 0) := by
  constructor
  · simp only [isClausePresent, clauseScore, specWeightedScore, checkSemanticConcepts,
      decide_eq_true_eq, ge_iff_le]
    constructor <;> intro h <;> linarith
  · intro h
    unfold checkSemanticConcepts
    rw [conceptMap_eq_nil_of_not_key h]
    rfl

/-- C8: the detector is a pure function of its arguments — equal
(clause, text) inputs give equal presence decisions and equal missing
lists. -/
theorem detector_deterministic (cd1 cd2 : Clause) (t1 t2 r1 r2 : String)
    (hc : cd1 = cd2) (ht : t1 = t2) (hr : r1 = r2) :
    isClausePresent cd1 t1 = isClausePresent cd2 t2 ∧
    getMissingClauses t1 r1 = getMissingClauses t2 r2 := by
  subst hc
  subst ht
  subst hr
  exact ⟨rfl, rfl⟩

/-- Witness for C8 at the GLBA privacy clause and a concrete text. -/
theorem detector_deterministic_witness :
    isClausePresent glbaClause1 "privacy" = isClausePresent glbaClause1 "privacy" ∧
    getMissingClauses "privacy" "GLBA" = getMissingClauses "privacy" "GLBA" :=
  detector_deterministic glbaClause1 glbaClause1 "privacy" "privacy" "GLBA" "GLBA"
    rfl rfl rfl

/-! ### Lemmas about the overall risk and score aggregation -/

theorem overallRiskLevel_high_iff (risks : List String) :
    overallRiskLevel risks = "high" ↔ "high" ∈ risks := by
  have hcount : (0 < risks.countP (fun r => r == "high")) ↔ "high" ∈ risks := by
    rw [List.countP_pos_iff]
    constructor
    · rintro ⟨a, ha, hb⟩
      rw [beq_iff_eq] at hb
      rwa [hb] at ha
    · intro h
      exact ⟨"high", h, by simp⟩
  unfold overallRiskLevel
  split_ifs with h1 h2
  · simp [hcount.mp h1]
  · have hn : "high" ∉ risks := fun hm => h1 (hcount.mpr hm)
    simp [hn]
  · have hn : "high" ∉ risks := fun hm => h1 (hcount.mpr hm)
    simp [hn]

theorem overallRiskLevel_low_iff (risks : List String) :
    overallRiskLevel risks = "low" ↔ ("high" ∉ risks ∧ "medium" ∉ risks) := by
  have hcount : (0 < risks.countP (fun r => r == "high")) ↔ "high" ∈ risks := by
    rw [List.countP_pos_iff]
    constructor
    · rintro ⟨a, ha, hb⟩
      rw [beq_iff_eq] at hb
      rwa [hb] at ha
    · intro h
      exact ⟨"high", h, by simp⟩
  have hany : (risks.any (fun r => r == "medium") = true) ↔ "medium" ∈ risks := by
    rw [List.any_eq_true]
    constructor
    · rintro ⟨a, ha, hb⟩
      rw [beq_iff_eq] at hb
      rwa [hb] at ha
    · intro h
      exact ⟨"medium", h, by simp⟩
  unfold overallRiskLevel
  split_ifs with h1 h2
  · have hh : "high" ∈ risks := hcount.mp h1
    simp [hh]
  · have hm : "medium" ∈ risks := hany.mp h2
    simp [hm]
  · have hh : "high" ∉ risks := fun hm => h1 (hcount.mpr hm)
    have hm : "medium" ∉ risks := fun hm => h2 (hany.mpr hm)
    simp [hh, hm]

/-- C6: the overall risk level is "high" exactly when some
per-regulation assessment is "high", and "low" exactly when no
assessment is "medium" or "high"; an empty result list yields "low". -/
theorem overall_risk_aggregation_spec (text : String) (regs : List String)
    (svc riskOf : String → String) :
    ((analyzeCompliance text regs svc riskOf).risk_level = "high" ↔
      ∃ res ∈ (analyzeCompliance text regs svc riskOf).results,
        res.risk_assessment = "high") ∧
    ((analyzeCompliance text regs svc riskOf).risk_level = "low" ↔
      ∀ res ∈ (analyzeCompliance text regs svc riskOf).results,
        res.risk_assessment ≠ "medium" ∧ res.risk_assessment ≠ "high") ∧
    ((analyzeCompliance text regs svc riskOf).results = [] →
      (analyzeCompliance text regs svc riskOf).risk_level = "low") := by
  refine ⟨?_, ?_, ?_⟩
  · rw [show (analyzeCompliance text regs svc riskOf).risk_level =
        overallRiskLevel ((analyzeCompliance text regs svc riskOf).results.map
          (fun r => r.risk_assessment)) from rfl]
    rw [overallRiskLevel_high_iff]
    simp [List.mem_map]
  · rw [show (analyzeCompliance text regs svc riskOf).risk_level =
        overallRiskLevel ((analyzeCompliance text regs svc riskOf).results.map
          (fun r => r.risk_assessment)) from rfl]
    rw [overallRiskLevel_low_iff]
    simp only [List.mem_map, not_exists, not_and]
    constructor
    · rintro ⟨hh, hm⟩ res hres
      exact ⟨fun he => (hm res hres) he, fun he => (hh res hres) he⟩
    · intro h
      exact ⟨fun res hres he => (h res hres).2 he, fun res hres he => (h res hres).1 he⟩
  · intro h
    rw [show (analyzeCompliance text regs svc riskOf).risk_level =
        overallRiskLevel ((analyzeCompliance text regs svc riskOf).results.map
          (fun r => r.risk_assessment)) from rfl]
    rw [h]
    rfl

/-- C7: the overall score is the arithmetic mean of the per-regulation
scores when the result list is non-empty and 0 when it is empty, and the
degenerate no-applicable-regulations analysis yields a valid report with
an empty result list and score 0, not an error. -/
theorem overall_score_mean_spec (text : String) (regs : List String)
    (svc riskOf : String → String) :
    ((analyzeCompliance text regs svc riskOf).overall_score =
      if (analyzeCompliance text regs svc riskOf).results = [] then 0
      else ((analyzeCompliance text regs svc riskOf).results.map
          (fun r => r.compliance_score)).sum /
        ((analyzeCompliance text regs svc riskOf).results.length : ℚ)) ∧
    (analyzeCompliance text regs svc riskOf).results.length = regs.length ∧
    (regs = [] →
      (analyzeCompliance text regs svc riskOf).results = [] ∧
      (analyzeCompliance text regs svc riskOf).overall_score = 0) := by
  refine ⟨?_, by simp [analyzeCompliance], ?_⟩
  · show (if (regs.map (perRegulationResult text svc riskOf)).length = 0 then (0:ℚ)
        else _) = _
    rcases eq_or_ne (regs.map (perRegulationResult text svc riskOf)) [] with he | he
    · rw [show (analyzeCompliance text regs svc riskOf).results =
          regs.map (perRegulationResult text svc riskOf) from rfl, he]
      simp
    · rw [show (analyzeCompliance text regs svc riskOf).results =
          regs.map (perRegulationResult text svc riskOf) from rfl]
      rw [if_neg he, if_neg (fun h => he (List.length_eq_zero.mp h))]
  · rintro rfl
    exact ⟨rfl, rfl⟩

/-! ### Unknown regulation ids -/

/-- C3 counterexample: an explicitly requested id outside the registry
does not fail the analysis — `analyze_compliance` emits a gap report for
it with compliance score 1.0 (and an empty missing list), contradicting
the claimed NotFound failure. -/
theorem unknown_regulation_scored_not_failed :
    (analyzeCompliance "" ["UNKNOWN_REG"] (fun _ => "") (fun _ => "medium")).results =
      [{ regulation := "UNKNOWN_REG"
         compliance_score := 1
         risk_assessment := "medium"
         missing_clauses := [] }] := by
  have hmc : getMissingClauses "" "UNKNOWN_REG" = [] := by decide
  have hcs : complianceScore 0 3 = 1 := by
    unfold complianceScore
    norm_num
  show [perRegulationResult "" (fun _ => "") (fun _ => "medium") "UNKNOWN_REG"] = _
  unfold perRegulationResult
  rw [hmc]
  simp [hcs]

/-- C3 amended: when a requested regulation id is not in the registry,
the core does not fail with NotFound; `get_missing_clauses` returns the
empty list for it and the analysis produces a result for that id with an
empty missing-clause list and compliance score 1.0 (the id is silently
treated as fully compliant). -/
theorem unknown_regulation_silently_scored (text reg : String)
    (svc riskOf : String → String) (h : reg ∉ regKeys) :
    getMissingClauses text reg = [] ∧
    (perRegulationResult text svc riskOf reg).compliance_score = 1 ∧
    (perRegulationResult text svc riskOf reg).missing_clauses = [] := by
  have hmc : getMissingClauses text reg = [] := by
    unfold getMissingClauses
    rw [if_neg (by simpa [List.contains] using h)]
  refine ⟨hmc, ?_, ?_⟩
  · rw [perRegulationResult_score, hmc]
    show complianceScore 0 3 = 1
    unfold complianceScore
    norm_num
  · simp [perRegulationResult, hmc]

/-- Witness for C3's amended claim at the id "ZZZ_NOT_A_REGULATION". -/
theorem unknown_regulation_silently_scored_witness :
    "ZZZ_NOT_A_REGULATION" ∉ regKeys ∧
    (getMissingClauses "" "ZZZ_NOT_A_REGULATION" = [] ∧
     (perRegulationResult "" (fun _ => "") (fun _ => "medium")
        "ZZZ_NOT_A_REGULATION").compliance_score = 1 ∧
     (perRegulationResult "" (fun _ => "") (fun _ => "medium")
        "ZZZ_NOT_A_REGULATION").missing_clauses = []) :=
  ⟨by decide,
   unknown_regulation_silently_scored "" "ZZZ_NOT_A_REGULATION"
     (fun _ => "") (fun _ => "medium") (by decide)⟩

/-! ### The remediation text generator's fallback -/

theorem fallback_contains_upper (regulation clause : String) (reqs : List String) :
    strContains (fallbackClauseText regulation clause reqs) (upperStr clause) = true := by
  rw [strContains_iff]
  unfold fallbackClauseText
  simp only [String.data_append, List.append_assoc]
  exact List.infix_append' _ _ _

theorem fallback_contains_regulation (regulation clause : String) (reqs : List String) :
    strContains (fallbackClauseText regulation clause reqs) regulation = true := by
  rw [strContains_iff]
  unfold fallbackClauseText
  simp only [String.data_append, List.append_assoc]
  exact infixOfTail _ (infixOfTail _ (infixOfTail _ ((List.prefix_append _ _).isInfix)))

theorem fallback_contains_lower (regulation clause : String) (reqs : List String) :
    strContains (fallbackClauseText regulation clause reqs) (lowerStr clause) = true := by
  rw [strContains_iff]
  unfold fallbackClauseText
  simp only [String.data_append, List.append_assoc]
  exact infixOfTail _ (infixOfTail _ (infixOfTail _ (infixOfTail _ (infixOfTail _
    ((List.prefix_append _ _).isInfix)))))

theorem fallback_contains_requirement (regulation clause : String)
    (reqs : List String) (q : String) (hq : q ∈ reqs) :
    strContains (fallbackClauseText regulation clause reqs) q = true := by
  rw [strContains_iff]
  unfold fallbackClauseText
  simp only [String.data_append, List.append_assoc]
  exact infixOfTail _ (infixOfTail _ (infixOfTail _ (infixOfTail _ (infixOfTail _
    (infixOfTail _ (infixOfTail _
      ((infix_joinComma hq).trans ((List.prefix_append _ _).isInfix))))))))

theorem fallback_contains_regarding (regulation clause : String) (reqs : List String) :
    strContains (fallbackClauseText regulation clause reqs) " regarding " = true := by
  rw [strContains_iff]
  unfold fallbackClauseText
  simp only [String.data_append, List.append_assoc]
  exact infixOfTail _ (infixOfTail _ (infixOfTail _ (infixOfTail _
    ((List.prefix_append _ _).isInfix))))

theorem fallback_ne_empty (regulation clause : String) (reqs : List String) :
    fallbackClauseText regulation clause reqs ≠ "" := by
  intro h
  have hc := fallback_contains_regarding regulation clause reqs
  rw [h] at hc
  exact absurd hc (by decide)

/-- C4 counterexample: for the clause "Financial Privacy Notice", the
fallback text triggered by a degraded service reply does not contain the
clause name verbatim (it contains only its uppercased and lowercased
renderings). -/
theorem fallback_clause_name_not_verbatim :
    strContains
      (generateAiClauseText "GLBA" "Financial Privacy Notice"
        ["Privacy notice delivery"] ""
        "AI analysis completed. Please review the compliance recommendations.")
      "Financial Privacy Notice" = false := by
  decide

/-- C4 amended: whenever the service reply is empty, shorter than the
50-character minimum, or carries the degraded sentinel, the generator
returns the non-empty fallback text, which contains the clause name
uppercased and lowercased (so verbatim only up to letter case), the
regulation id, and every requirement phrase verbatim — for every clause
and requirement list, so generation never fails. -/
theorem fallback_text_always_generated (regulation clause : String)
    (reqs : List String) (ctx response : String)
    (h : response = "" ∨ response.length < 50 ∨
      strContains response "AI analysis completed" = true) :
    generateAiClauseText regulation clause reqs ctx response ≠ "" ∧
    strContains (generateAiClauseText regulation clause reqs ctx response)
      (upperStr clause) = true ∧
    strContains (generateAiClauseText regulation clause reqs ctx response)
      (lowerStr clause) = true ∧
    strContains (generateAiClauseText regulation clause reqs ctx response)
      regulation = true ∧
    ∀ q ∈ reqs, strContains (generateAiClauseText regulation clause reqs ctx response)
      q = true := by
  unfold generateAiClauseText
  rw [if_pos h]
  exact ⟨fallback_ne_empty regulation clause reqs,
    fallback_contains_upper regulation clause reqs,
    fallback_contains_lower regulation clause reqs,
    fallback_contains_regulation regulation clause reqs,
    fun q hq => fallback_contains_requirement regulation clause reqs q hq⟩

/-- Witness for C4's amended claim at the GLBA privacy clause and the
degraded-sentinel reply. -/
theorem fallback_text_always_generated_witness :
    ("AI analysis completed. Please review the compliance recommendations." = "" ∨
     String.length
       "AI analysis completed. Please review the compliance recommendations." < 50 ∨
     strContains "AI analysis completed. Please review the compliance recommendations."
       "AI analysis completed" = true) ∧
    (generateAiClauseText "GLBA" "Financial Privacy Notice" ["Privacy notice delivery"]
        "" "AI analysis completed. Please review the compliance recommendations." ≠ "" ∧
     strContains (generateAiClauseText "GLBA" "Financial Privacy Notice"
        ["Privacy notice delivery"] ""
        "AI analysis completed. Please review the compliance recommendations.")
       (upperStr "Financial Privacy Notice") = true ∧
     strContains (generateAiClauseText "GLBA" "Financial Privacy Notice"
        ["Privacy notice delivery"] ""
        "AI analysis completed. Please review the compliance recommendations.")
       (lowerStr "Financial Privacy Notice") = true ∧
     strContains (generateAiClauseText "GLBA" "Financial Privacy Notice"
        ["Privacy notice delivery"] ""
        "AI analysis completed. Please review the compliance recommendations.")
       "GLBA" = true ∧
     ∀ q ∈ ["Privacy notice delivery"],
       strContains (generateAiClauseText "GLBA" "Financial Privacy Notice"
          ["Privacy notice delivery"] ""
          "AI analysis completed. Please review the compliance recommendations.")
         q = true) :=
  ⟨Or.inr (Or.inr (by decide)),
   fallback_text_always_generated "GLBA" "Financial Privacy Notice"
     ["Privacy notice delivery"] ""
     "AI analysis completed. Please review the compliance recommendations."
     (Or.inr (Or.inr (by decide)))⟩

end ContractCompliance
